import Mathlib

/-!
# Verification of the Spotilize clustering pipeline (src/app/app.py)

Shallow embedding of the core pipeline of the repository:
track collection (pagination), audio-feature fetching (batching with
per-batch failure tolerance), k-means clustering (external library with a
fixed random seed), and playlist materialization (creation plus batched
insertion of items).

External collaborators (the Spotify client adapter and the scikit-learn
KMeans implementation) are modelled from the spec of their interfaces:
the catalog client is a record of response functions, and the playlist
mutations are recorded in an explicit event log. Python exceptions are
modelled with `Except`, where an error value carries the state (event log)
at the moment the exception was raised.
-/

set_option autoImplicit false

deriving instance DecidableEq for Except

namespace Spotilize

/-- A four-dimensional audio feature record, as read from the feature
service response: danceability, energy, valence, tempo. -/
structure Feature where
  danceability : ℚ
  energy : ℚ
  valence : ℚ
  tempo : ℚ
deriving DecidableEq

/-- One raw track record as returned by the catalog listings.
`flat id?` is a record without a nested wrapper (so `t.get("track", t)`
yields the record itself) holding an optional identifier; `wrapped inner`
is a record with a nested track value, which may itself be null (`none`)
or be a track record with an optional identifier. -/
inductive RawItem where
  | flat (id? : Option String)
  | wrapped (inner : Option (Option String))
deriving DecidableEq

/-- One observable mutation of the external catalog: a playlist creation
(the service assigns the fresh playlist identifier `pid`) or an insertion
of a batch of track identifiers into a playlist. -/
inductive SpotifyEvent where
  | create (user : String) (pname : String) (isPublic : Bool) (pid : Nat)
  | addItems (pid : Nat) (items : List String)
deriving DecidableEq

/-- The external catalog service state visible to a run: the counter used
to assign fresh playlist identifiers and the log of performed mutations. -/
structure SpState where
  counter : Nat
  log : List SpotifyEvent
deriving DecidableEq

/-- The catalog client adapter. Modelled from the spec: the external
interfaces of section 6. Listings are functions from an offset to the
page items and a has-next flag; `feat` gives the per-identifier feature
result (none = unavailable/empty); `batchFails` tells which feature
batch requests fail as a unit with a transport error; `createFails` and
`addFails` tell which playlist mutations raise. -/
structure SpClient where
  saved_page : Nat → List RawItem × Bool
  top_page : Nat → List RawItem × Bool
  feat : String → Option Feature
  batchFails : List String → Bool
  createFails : String → Bool
  addFails : Nat → List String → Bool
  current_user : String

/-- Modelled from the spec: `getAudioFeatures(batchOfIds)` returns a
sequence of feature-or-absent, same length and order as the input, and
fails as a unit on transport error. -/
def SpClient.audio_features (sp : SpClient) (batch : List String) :
    Except Unit (List (Option Feature)) :=
  if sp.batchFails batch then Except.error () else Except.ok (batch.map sp.feat)

/-- Modelled from the spec: the external k-means library. `run` is the
deterministic core that labels each data row given a cluster count and a
seed; `rng` is the ambient global random state the library falls back to
when no explicit `random_state` is supplied. -/
structure KMeansLib where
  run : Nat → Nat → List (List ℚ) → List Nat
  rng : Nat

/-- `KMeans(n_clusters=K, random_state=r).fit_predict(X)`: with an
explicit `random_state` the ambient random state is ignored; without one
the library draws its seed from the ambient state. -/
def kmeans_fit_predict (lib : KMeansLib) (n_clusters : Nat)
    (random_state : Option Nat) (X : List (List ℚ)) : List Nat :=
  match random_state with
  | some s => lib.run n_clusters s X
  | none => lib.run n_clusters lib.rng X

/-- Fuel-indexed slicing of a list into consecutive chunks of `n`; the
fuel only bounds the number of iterations so that the recursion is
structural (it is always called with fuel = length, which suffices
because each iteration consumes at least one element for n > 0). -/
def chunksAux {α : Type} (n : Nat) : Nat → List α → List (List α)
  | 0, _ => []
  | _ + 1, [] => []
  | fuel + 1, x :: xs => ((x :: xs).take n) :: chunksAux n fuel ((x :: xs).drop n)

/-- `for i in range(0, len(l), 100): l[i:i+100]` — the consecutive
100-element slices of a list (the last slice may be shorter). -/
def chunks100 {α : Type} (l : List α) : List (List α) :=
  chunksAux 100 l.length l

/-- The shared pagination loop of `fetch_liked_songs` and
`fetch_top_songs` (lines 41-63): request the page at `offset`, append its
items, stop when the service reports no next page, otherwise advance the
offset by the page size 50. The `while True` loop is given fuel; `none`
models non-termination (the service never reporting a last page). -/
def fetch_pages (page : Nat → List RawItem × Bool) :
    Nat → Nat → List RawItem → Option (List RawItem)
  | 0, _, _ => none
  | fuel + 1, offset, results =>
    let r := page offset
    let results := results ++ r.1
    if r.2 then fetch_pages page fuel (offset + 50) results else some results

/-- `fetch_liked_songs(sp)` (lines 41-51): full pagination of the saved
tracks listing with page size 50 starting at offset 0. -/
def fetch_liked_songs (sp : SpClient) (fuel : Nat) : Option (List RawItem) :=
  fetch_pages sp.saved_page fuel 0 []

/-- `fetch_top_songs(sp)` (lines 53-63): full pagination of the top
tracks listing with page size 50 starting at offset 0. -/
def fetch_top_songs (sp : SpClient) (fuel : Nat) : Option (List RawItem) :=
  fetch_pages sp.top_page fuel 0 []

/-- The batches actually sent to the feature service by
`get_audio_features` (lines 67-68): the input is sliced into consecutive
100-slices first, and empty identifiers are filtered inside each slice. -/
def feature_batches (track_ids : List String) : List (List String) :=
  (chunks100 track_ids).map (fun chunk => chunk.filter (fun tid => tid ≠ ""))

/-- `get_audio_features(sp, track_ids)` (lines 65-78): for each
100-slice, filter out empty identifiers, request the batch; on a service
error skip the batch (continue); finally drop empty per-identifier
results (`[f for f in features if f]`). -/
def get_audio_features (sp : SpClient) (track_ids : List String) : List Feature :=
  ((chunks100 track_ids).foldl
    (fun features chunk =>
      match sp.audio_features (chunk.filter (fun tid => tid ≠ "")) with
      | Except.ok batch_features => features ++ batch_features
      | Except.error _ => features)
    []).filterMap id

/-- The identifier extracted from one raw item (lines 86-89):
`track = t.get("track", t)`, keep `track["id"]` when the track value and
the identifier are both truthy. -/
def extract_id : RawItem → Option String
  | RawItem.flat id? => match id? with
    | some s => if s = "" then none else some s
    | none => none
  | RawItem.wrapped inner => match inner with
    | some (some s) => if s = "" then none else some s
    | _ => none

/-- The identifier-extraction loop of lines 85-89. -/
def extract_track_ids (tracks : List RawItem) : List String :=
  tracks.filterMap extract_id

/-- Lines 85-91: extraction followed by the (redundant) second filter
`[tid for tid in track_ids if tid]`. -/
def pipeline_track_ids (tracks : List RawItem) : List String :=
  (extract_track_ids tracks).filter (fun tid => tid ≠ "")

/-- Line 99: the data matrix, one row per feature record, with the four
columns danceability, energy, valence, tempo. -/
def featureMatrix (features : List Feature) : List (List ℚ) :=
  features.map (fun f => [f.danceability, f.energy, f.valence, f.tempo])

/-- `clustered_tracks[label].append(x)`: append `x` to the sequence at
index `i` (a label outside `0..K-1` would raise a KeyError in the source
and appends nowhere here; the clustering library never produces one). -/
def appendAt (ls : List (List String)) (i : Nat) (x : String) : List (List String) :=
  ls.set i (ls.getD i [] ++ [x])

/-- Lines 100-105: run k-means with the fixed seed `random_state=42`,
then distribute `track_ids[idx]` into `clustered_tracks[label]` for each
`(idx, label)` in `enumerate(labels)`, starting from the mapping
`{i: [] for i in range(cluster_count)}` (iteration order of the Python
dict is the ascending insertion order 0..K-1). -/
def cluster_assignment (lib : KMeansLib) (cluster_count : Nat)
    (X : List (List ℚ)) (track_ids : List String) : List (List String) :=
  let labels := kmeans_fit_predict lib cluster_count (some 42) X
  labels.enum.foldl (fun acc p => appendAt acc p.2 (track_ids.getD p.1 ""))
    ((List.range cluster_count).map (fun _ => []))

/-- Line 111: `f"Cluster (cluster_label + 1) Playlist"` with the label
interpolated in decimal. -/
def playlistName (cluster_label : Nat) : String :=
  "Cluster " ++ toString (cluster_label + 1) ++ " Playlist"

/-- Lines 113-114: insert the batches of a cluster into the playlist
`pid`, one `playlist_add_items` call per batch; an insertion failure
raises, carrying the catalog state at that moment. -/
def add_all (sp : SpClient) (pid : Nat) :
    List (List String) → SpState → Except SpState SpState
  | [], st => Except.ok st
  | b :: bs, st =>
    if sp.addFails pid b then Except.error st
    else add_all sp pid bs ⟨st.counter, st.log ++ [SpotifyEvent.addItems pid b]⟩

/-- Lines 107-117: the materialization loop over
`clustered_tracks.items()`. `i` is the cluster label of the head of the
remaining cluster list; empty clusters are skipped; for a non-empty
cluster one private playlist is created (receiving the fresh identifier
`st.counter`), its tracks are inserted in 100-slices, and the playlist
name is appended to the accumulator. A creation or insertion failure
raises with the catalog state at that moment. -/
def materialize_loop (sp : SpClient) (user_id : String) :
    Nat → List (List String) → SpState → List String →
    Except SpState (SpState × List String)
  | _, [], st, names => Except.ok (st, names)
  | i, track_list :: rest, st, names =>
    if track_list = [] then materialize_loop sp user_id (i + 1) rest st names
    else
      let pname := playlistName i
      if sp.createFails pname then Except.error st
      else
        let pid := st.counter
        let st1 : SpState :=
          ⟨st.counter + 1, st.log ++ [SpotifyEvent.create user_id pname false pid]⟩
        match add_all sp pid (chunks100 track_list) st1 with
        | Except.error st2 => Except.error st2
        | Except.ok st2 => materialize_loop sp user_id (i + 1) rest st2 (names ++ [pname])

/-- `cluster_and_create_playlists(sp, tracks, user_id, cluster_count)`
(lines 80-117). Result: `Except.ok (st, none)` for the two degenerate
early returns (`return None`), `Except.ok (st, some names)` for a
completed run, `Except.error st` when a playlist mutation raised; `st`
is the external catalog state (fresh-id counter and event log) produced
by the run. -/
def cluster_and_create_playlists (sp : SpClient) (lib : KMeansLib)
    (tracks : List RawItem) (user_id : String) (cluster_count : Nat) :
    Except SpState (SpState × Option (List String)) :=
  if tracks = [] then Except.ok (⟨0, []⟩, none)
  else
    let track_ids := pipeline_track_ids tracks
    let features := get_audio_features sp track_ids
    if features = [] then Except.ok (⟨0, []⟩, none)
    else
      let X := featureMatrix features
      let clustered_tracks := cluster_assignment lib cluster_count X track_ids
      match materialize_loop sp user_id 0 clustered_tracks ⟨0, []⟩ [] with
      | Except.error st => Except.error st
      | Except.ok (st, created_playlists) => Except.ok (st, some created_playlists)

/-- The token record held in the session. `expired` is the value of
`sp_oauth.is_token_expired(token_info)` for this record. -/
structure TokenInfo where
  access_token : String
  refresh_token : String
  expired : Bool
deriving DecidableEq

/-- The OAuth helper. Modelled from the spec: `refresh_access_token`
either returns a fresh token record or raises (`none`). -/
structure OAuth where
  refresh : String → Option TokenInfo

/-- `get_spotify_client()` (lines 28-39): no session token yields no
client; an expired token is refreshed, a failed refresh yields no client
(the session is left unchanged), a successful refresh is stored back in
the session. The Spotify client is represented by its access token.
Returns (client, updated session). -/
def get_spotify_client (oauth : OAuth) (sess : Option TokenInfo) :
    Option String × Option TokenInfo :=
  match sess with
  | none => (none, sess)
  | some token_info =>
    if token_info.expired then
      match oauth.refresh token_info.refresh_token with
      | some token_info1 => (some token_info1.access_token, some token_info1)
      | none => (none, sess)
    else (some token_info.access_token, some token_info)

/-- The outcome of one request to the `/choose` route: a redirect to a
named route carrying an optional flashed (message, category) pair, or a
rendered template. -/
inductive HttpResult where
  | redirect (target : String) (fl : Option (String × String))
  | render (template : String)
deriving DecidableEq

/-- The `/choose` handler (lines 149-183), with the route functions of
`url_for` represented by their endpoint names. The result is paired with
the catalog mutation log of the request (`[]` when no playlist mutation
ran); the outer `Option` is the pagination fuel: `none` models a run
whose collection loop never terminates. -/
def choose_route (oauth : OAuth) (sp : SpClient) (lib : KMeansLib)
    (sess : Option TokenInfo) (isPost : Bool) (song_choice : String)
    (cluster_count : Nat) (fuel : Nat) :
    Option (HttpResult × List SpotifyEvent) :=
  match (get_spotify_client oauth sess).1 with
  | none => some (HttpResult.redirect "index" (some ("Please login first.", "warning")), [])
  | some _ =>
    if isPost then
      let user_id := sp.current_user
      match (if song_choice = "liked" ∨ song_choice = "both"
             then fetch_liked_songs sp fuel else some []) with
      | none => none
      | some liked =>
        match (if song_choice = "top" ∨ song_choice = "both"
               then fetch_top_songs sp fuel else some []) with
        | none => none
        | some top =>
          let tracks := liked ++ top
          if tracks = [] then
            some (HttpResult.redirect "choose"
              (some ("No songs found in the selected category.", "warning")), [])
          else
            match cluster_and_create_playlists sp lib tracks user_id cluster_count with
            | Except.error st =>
              some (HttpResult.redirect "index"
                (some ("An error occurred while processing your songs.", "danger")), st.log)
            | Except.ok (st, playlists) =>
              match playlists with
              | none =>
                some (HttpResult.redirect "index"
                  (some ("Could not create playlists. No valid track features.", "danger")), st.log)
              | some names =>
                if names = [] then
                  some (HttpResult.redirect "index"
                    (some ("Could not create playlists. No valid track features.", "danger")), st.log)
                else
                  some (HttpResult.redirect "index"
                    (some ("Created playlists: " ++ String.intercalate ", " names, "success")), st.log)
    else some (HttpResult.render "choose.html", [])

/-- Squared euclidean distance between two feature rows. -/
def sqDist (a b : List ℚ) : ℚ :=
  ((a.zip b).map (fun p => (p.1 - p.2) * (p.1 - p.2))).sum

/-- Index of the first minimum of a distance list, given the best value
and index seen so far and the index of the head of the remaining list. -/
def argminAux (best : ℚ) (bestIdx : Nat) (i : Nat) : List ℚ → Nat
  | [] => bestIdx
  | d :: ds => if d < best then argminAux d i (i + 1) ds else argminAux best bestIdx (i + 1) ds

/-- Index of the first minimum of a non-empty distance list. -/
def argminIdx : List ℚ → Nat
  | [] => 0
  | d :: ds => argminAux d 0 1 ds

/-- Modelled from the spec: a concrete deterministic k-means used to
instantiate `KMeansLib.run` in witnesses — centroids are data rows picked
by the seed, and each row is labelled with its nearest centroid. The
theorems about the pipeline only rely on the labelling being a function
of (cluster count, seed, data) with one in-range label per row. -/
def detKMeans (n_clusters seed : Nat) (X : List (List ℚ)) : List Nat :=
  if n_clusters = 0 then []
  else
    let cents := (List.range n_clusters).map
      (fun j => X.getD ((seed + j) % max X.length 1) [])
    X.map (fun x => argminIdx (cents.map (fun c => sqDist x c)))

/-! ## Specification-side definitions

Definitions that follow the words of the spec (not the source), used to
state refinement comparisons and to characterize the proved behavior. -/

/-- The batching the spec describes for the Feature Fetcher: filter out
empty identifiers first, then partition the remainder into consecutive
batches of 100. -/
def spec_feature_batches (track_ids : List String) : List (List String) :=
  chunks100 (track_ids.filter (fun tid => tid ≠ ""))

/-- The Feature Fetcher as the spec words it: one external request per
spec-side batch, a failed batch dropped whole, empty per-identifier
results discarded at the end. Used only to compare observable behavior
with `get_audio_features`. -/
def spec_get_audio_features (sp : SpClient) (track_ids : List String) : List Feature :=
  (((spec_feature_batches track_ids).map
      (fun batch =>
        match sp.audio_features batch with
        | Except.ok batch_features => batch_features
        | Except.error _ => [])).flatten).filterMap id

/-- The identifiers that survive the Feature Fetcher: members of a batch
whose request succeeded, whose per-identifier result is non-empty, in
input order. -/
def survivors (sp : SpClient) (track_ids : List String) : List String :=
  (((feature_batches track_ids).filter
      (fun batch => sp.batchFails batch = false)).flatten).filter
    (fun tid => (sp.feat tid).isSome)

/-- The event log a fully successful materialization run produces,
starting at cluster label `i` with fresh-identifier counter `c`: for each
non-empty cluster in label order, one creation event followed by one
insertion event per 100-slice of the cluster. -/
def successLog (user_id : String) : Nat → Nat → List (List String) → List SpotifyEvent
  | _, _, [] => []
  | i, c, track_list :: rest =>
    if track_list = [] then successLog user_id (i + 1) c rest
    else
      SpotifyEvent.create user_id (playlistName i) false c ::
        ((chunks100 track_list).map (fun b => SpotifyEvent.addItems c b) ++
          successLog user_id (i + 1) (c + 1) rest)

/-- The names a fully successful materialization run returns, starting at
cluster label `i`: one name per non-empty cluster, in label order. -/
def successNames : Nat → List (List String) → List String
  | _, [] => []
  | i, track_list :: rest =>
    if track_list = [] then successNames (i + 1) rest
    else playlistName i :: successNames (i + 1) rest

/-- All items inserted into playlist `pid` by a log, in insertion order,
batch boundaries erased. -/
def itemsAdded (log : List SpotifyEvent) (pid : Nat) : List String :=
  (log.filterMap (fun e =>
    match e with
    | SpotifyEvent.addItems p b => if p = pid then some b else none
    | _ => none)).flatten

/-- Every insertion event of the log carries at most 100 items. -/
def smallBatches (log : List SpotifyEvent) : Prop :=
  ∀ e ∈ log, ∀ p b, e = SpotifyEvent.addItems p b → b.length ≤ 100

/-! ## Concrete fixtures for counterexamples and witnesses -/

/-- A sample feature record. -/
def f0 : Feature := ⟨1, 0, 1, 120⟩

/-- A client for the C1 failing input: every batch request succeeds, the
feature of track "a" comes back empty, the feature of any other track
resolves to `f0`; playlist mutations succeed. -/
def spC1 : SpClient :=
  ⟨fun _ => ([], false), fun _ => ([], false),
   fun tid => if tid = "a" then none else some f0,
   fun _ => false, fun _ => false, fun _ _ => false, "user"⟩

/-- The C1 failing input: two flat track records "a" and "b". -/
def tracksC1 : List RawItem := [RawItem.flat (some "a"), RawItem.flat (some "b")]

/-- A client for the C2 failing input: every feature resolves, but any
batch request containing track "a" fails with a transport error;
playlist mutations succeed. -/
def spC2 : SpClient :=
  ⟨fun _ => ([], false), fun _ => ([], false),
   fun _ => some f0,
   fun batch => batch.contains "a", fun _ => false, fun _ _ => false, "user"⟩

/-- The C2 failing input: 101 track records, so that the feature lookup
is split into a first batch of 100 (containing "a", failing) and a
second batch (["b"], succeeding). -/
def tracksC2 : List RawItem :=
  RawItem.flat (some "a") ::
    (List.replicate 99 (RawItem.flat (some "x")) ++ [RawItem.flat (some "b")])

/-- The C5 counterexample input: an empty identifier followed by 100
non-empty ones. -/
def badIdsC5 : List String := "" :: List.replicate 100 "x"

/-- A client for the C5 counterexample: a batch request succeeds exactly
when the batch holds 100 identifiers (within the service maximum), and
every feature resolves. -/
def spC5 : SpClient :=
  ⟨fun _ => ([], false), fun _ => ([], false),
   fun _ => some f0,
   fun batch => decide (batch.length ≠ 100), fun _ => false, fun _ _ => false, "user"⟩

/-- A fully cooperative client: every feature resolves, every batch and
every playlist mutation succeeds. -/
def spOk : SpClient :=
  ⟨fun _ => ([], false), fun _ => ([], false),
   fun _ => some f0, fun _ => false, fun _ => false, fun _ _ => false, "user"⟩

/-- A client whose playlist creation fails exactly for the name
"Cluster 2 Playlist" (cluster label 1); everything else succeeds. -/
def spC8 : SpClient :=
  ⟨fun _ => ([], false), fun _ => ([], false),
   fun _ => some f0, fun _ => false,
   fun pname => pname = playlistName 1, fun _ _ => false, "user"⟩

/-- A client used for the pagination witnesses: the saved-tracks listing
serves two full pages of 50 at offsets 0 and 50 and reports a next page
only after the first, the top-tracks listing serves one page and reports
no next page. -/
def spC6 : SpClient :=
  ⟨fun offset =>
     if offset = 0 then (List.replicate 50 (RawItem.flat (some "s")), true)
     else (List.replicate 50 (RawItem.flat (some "t")), false),
   fun _ => ([RawItem.flat (some "u")], false),
   fun _ => some f0, fun _ => false, fun _ => false, fun _ _ => false, "user"⟩

/-- The concrete k-means library instance for witnesses. -/
def libW : KMeansLib := ⟨detKMeans, 0⟩

/-- The same k-means algorithm under a different ambient random state. -/
def libW2 : KMeansLib := ⟨detKMeans, 987654321⟩

/-- An expired session token for the C10 input. -/
def tokC10 : TokenInfo := ⟨"old-access", "old-refresh", true⟩

/-- An OAuth helper whose refresh always raises. -/
def oauthC10 : OAuth := ⟨fun _ => none⟩

/-! ## Lemmas about slicing -/

theorem chunksAux_fuel {α : Type} (f1 : Nat) : ∀ (f2 : Nat) (l : List α),
    l.length ≤ f1 → l.length ≤ f2 → chunksAux 100 f1 l = chunksAux 100 f2 l := by
  induction f1 with
  | zero =>
    intro f2 l h1 _
    have hl : l = [] := List.length_eq_zero.mp (Nat.le_zero.mp h1)
    subst hl; cases f2 <;> rfl
  | succ f1 ih =>
    intro f2 l h1 h2
    cases l with
    | nil => cases f2 <;> rfl
    | cons x xs =>
      cases f2 with
      | zero => simp at h2
      | succ f2 =>
        simp only [chunksAux]
        congr 1
        refine ih f2 ((x :: xs).drop 100) ?_ ?_ <;>
          (simp only [List.length_drop, List.length_cons] at h1 h2 ⊢; omega)

theorem chunks100_cons {α : Type} (x : α) (xs : List α) :
    chunks100 (x :: xs) = (x :: xs).take 100 :: chunks100 ((x :: xs).drop 100) := by
  show chunksAux 100 (xs.length + 1) (x :: xs) = _
  simp only [chunksAux]
  congr 1
  exact chunksAux_fuel xs.length _ _ (by simp only [List.length_drop, List.length_cons]; omega) le_rfl

theorem chunks100_eq_nil_iff {α : Type} (l : List α) : chunks100 l = [] ↔ l = [] := by
  cases l with
  | nil => simp [chunks100, chunksAux]
  | cons x xs => rw [chunks100_cons]; simp

theorem chunks100_flatten {α : Type} : ∀ (l : List α), (chunks100 l).flatten = l
  | [] => rfl
  | x :: xs => by
    rw [chunks100_cons, List.flatten_cons, chunks100_flatten ((x :: xs).drop 100),
      List.take_append_drop]
termination_by l => l.length
decreasing_by simp only [List.length_drop]; simp; omega

theorem chunks100_length_le {α : Type} : ∀ (l : List α), ∀ b ∈ chunks100 l, b.length ≤ 100
  | [] => by intro b hb; simp [chunks100, chunksAux] at hb
  | x :: xs => by
    intro b hb
    rw [chunks100_cons] at hb
    rcases List.mem_cons.mp hb with h | h
    · subst h; simp only [List.length_take]; omega
    · exact chunks100_length_le ((x :: xs).drop 100) b h
termination_by l => l.length
decreasing_by simp only [List.length_drop]; simp; omega

theorem chunks100_full {α : Type} : ∀ (l : List α) (i : Nat),
    i + 1 < (chunks100 l).length → ((chunks100 l).getD i []).length = 100
  | [], i => by simp [chunks100, chunksAux]
  | x :: xs, i => by
    intro hi
    rw [chunks100_cons] at hi ⊢
    cases i with
    | zero =>
      have hd : chunks100 ((x :: xs).drop 100) ≠ [] := by
        intro he; rw [he] at hi; simp at hi
      have hdrop : (x :: xs).drop 100 ≠ [] := by
        intro he; exact hd ((chunks100_eq_nil_iff _).mpr he)
      have hlen : 100 < (x :: xs).length := by
        by_contra hcon
        exact hdrop (List.drop_eq_nil_of_le (by omega))
      simp only [List.getD_cons_zero, List.length_take]
      omega
    | succ i =>
      simp only [List.getD_cons_succ]
      exact chunks100_full ((x :: xs).drop 100) i (by simpa using hi)
termination_by l => l.length
decreasing_by simp only [List.length_drop]; simp; omega

theorem feature_batches_of_no_empty : ∀ (l : List String),
    (∀ tid ∈ l, tid ≠ "") → feature_batches l = chunks100 l
  | [] => by intro _; rfl
  | x :: xs => by
    intro h
    simp only [feature_batches, chunks100_cons, List.map_cons]
    have h1 : ((x :: xs).take 100).filter (fun tid => tid ≠ "") = (x :: xs).take 100 :=
      List.filter_eq_self.mpr (fun a ha => by
        simpa using h a (List.mem_of_mem_take ha))
    have h2 : feature_batches ((x :: xs).drop 100) = chunks100 ((x :: xs).drop 100) :=
      feature_batches_of_no_empty ((x :: xs).drop 100)
        (fun a ha => h a (List.mem_of_mem_drop ha))
    rw [h1]
    rw [feature_batches] at h2
    rw [h2]
termination_by l => l.length
decreasing_by simp only [List.length_drop]; simp; omega

/-! ## Lemmas about the Feature Fetcher -/

theorem gaf_foldl (sp : SpClient) : ∀ (L : List (List String)) (acc : List (Option Feature)),
    L.foldl
      (fun features chunk =>
        match sp.audio_features (chunk.filter (fun tid => tid ≠ "")) with
        | Except.ok batch_features => features ++ batch_features
        | Except.error _ => features) acc
    = acc ++ (L.map
        (fun chunk =>
          match sp.audio_features (chunk.filter (fun tid => tid ≠ "")) with
          | Except.ok batch_features => batch_features
          | Except.error _ => [])).flatten := by
  intro L
  induction L with
  | nil => intro acc; simp
  | cons c L ih =>
    intro acc
    simp only [List.foldl_cons, List.map_cons, List.flatten_cons, ih]
    cases h : sp.audio_features (c.filter (fun tid => tid ≠ "")) <;> simp [h]

theorem flatten_map_ite {α β : Type} (p : List α → Bool) (f : List α → List β) :
    ∀ (L : List (List α)),
      (L.map (fun b => if p b then [] else f b)).flatten
        = ((L.filter (fun b => p b = false)).map f).flatten := by
  intro L
  induction L with
  | nil => rfl
  | cons b L ih => cases hb : p b <;> simp [hb, ih]

theorem filterMap_id_flatten_map {α β : Type} (f : α → Option β) :
    ∀ (M : List (List α)),
      ((M.map (fun b => b.map f)).flatten).filterMap id = (M.flatten).filterMap f := by
  intro M
  induction M with
  | nil => rfl
  | cons b M ih =>
    simp only [List.map_cons, List.flatten_cons, List.filterMap_append, ih]
    congr 1
    rw [List.filterMap_map]
    rfl

/-- `get_audio_features` in closed form: the surviving features are the
resolved features of the identifiers of the successful batches, in
order. -/
theorem gaf_eq (sp : SpClient) (track_ids : List String) :
    get_audio_features sp track_ids
      = (((feature_batches track_ids).filter
            (fun b => sp.batchFails b = false)).flatten).filterMap sp.feat := by
  rw [get_audio_features, gaf_foldl, List.nil_append]
  have hmap : (chunks100 track_ids).map
      (fun chunk =>
        match sp.audio_features (chunk.filter (fun tid => tid ≠ "")) with
        | Except.ok batch_features => batch_features
        | Except.error _ => [])
      = (feature_batches track_ids).map
          (fun b => if sp.batchFails b then [] else b.map sp.feat) := by
    rw [feature_batches, List.map_map]
    refine List.map_congr_left (fun chunk _ => ?_)
    simp only [Function.comp, SpClient.audio_features]
    cases hb : sp.batchFails (chunk.filter (fun tid => tid ≠ "")) <;> simp [hb]
  rw [hmap, flatten_map_ite, filterMap_id_flatten_map]

theorem length_flatten_filter_le {α : Type} (p : List α → Bool) :
    ∀ (L : List (List α)), ((L.filter p).flatten).length ≤ L.flatten.length := by
  intro L
  induction L with
  | nil => simp
  | cons b L ih =>
    cases hb : p b with
    | false =>
      rw [List.filter_cons_of_neg (by simp [hb]), List.flatten_cons, List.length_append]
      omega
    | true =>
      rw [List.filter_cons_of_pos (by simp [hb]), List.flatten_cons, List.flatten_cons,
        List.length_append, List.length_append]
      omega

theorem length_flatten_map_filter_le {α : Type} (p : α → Bool) :
    ∀ (L : List (List α)), ((L.map (List.filter p)).flatten).length ≤ L.flatten.length := by
  intro L
  induction L with
  | nil => simp
  | cons b L ih =>
    simp only [List.map_cons, List.flatten_cons, List.length_append]
    have := List.length_filter_le p b
    omega

theorem length_filterMap_eq_filter {α β : Type} (f : α → Option β) :
    ∀ (l : List α), (l.filterMap f).length = (l.filter (fun x => (f x).isSome)).length := by
  intro l
  induction l with
  | nil => rfl
  | cons x l ih => cases hx : f x <;> simp [hx, List.filterMap_cons, ih]

/-! ## Lemmas about the Track Collector -/

theorem fetch_pages_single (page : Nat → List RawItem × Bool) (fuel : Nat)
    (hf : 1 ≤ fuel) (h : (page 0).2 = false) :
    fetch_pages page fuel 0 [] = some (page 0).1 := by
  cases fuel with
  | zero => omega
  | succ fuel => simp [fetch_pages, h]

theorem fetch_pages_succ (page : Nat → List RawItem × Bool) (fuel offset : Nat)
    (results : List RawItem) :
    fetch_pages page (fuel + 1) offset results =
      if (page offset).2 then fetch_pages page fuel (offset + 50) (results ++ (page offset).1)
      else some (results ++ (page offset).1) := rfl

theorem fetch_pages_shift (page : Nat → List RawItem × Bool) :
    ∀ (pages : List (List RawItem)) (j : Nat) (acc : List RawItem), pages ≠ [] →
      (∀ i, i < pages.length →
        page (50 * j + 50 * i) = (pages.getD i [], decide (i + 1 < pages.length))) →
      fetch_pages page pages.length (50 * j) acc = some (acc ++ pages.flatten) := by
  intro pages
  induction pages with
  | nil => intro j acc h _; exact absurd rfl h
  | cons p ps ih =>
    intro j acc _ hpage
    have h0 := hpage 0 (by simp)
    simp only [Nat.mul_zero, Nat.add_zero, List.getD_cons_zero] at h0
    cases ps with
    | nil =>
      have hF : (page (50 * j)).2 = false := by rw [h0]; simp
      rw [show ([p] : List (List RawItem)).length = 0 + 1 from rfl, fetch_pages_succ,
        if_neg (by simp [hF])]
      rw [show (page (50 * j)).1 = p by rw [h0]]
      simp
    | cons q qs =>
      have hT : (page (50 * j)).2 = true := by rw [h0]; simp
      have hI : (page (50 * j)).1 = p := by rw [h0]
      have hnext : ∀ i, i < (q :: qs).length →
          page (50 * (j + 1) + 50 * i) = ((q :: qs).getD i [], decide (i + 1 < (q :: qs).length)) := by
        intro i hi
        have hp := hpage (i + 1) (by simpa using Nat.succ_lt_succ hi)
        rw [show 50 * (j + 1) + 50 * i = 50 * j + 50 * (i + 1) by ring, hp]
        simp only [List.getD_cons_succ]
        congr 1
        exact decide_eq_decide.mpr (by simp only [List.length_cons]; omega)
      have hrec := ih (j + 1) (acc ++ p) (by simp) hnext
      rw [show (p :: q :: qs).length = (q :: qs).length + 1 from rfl, fetch_pages_succ,
        if_pos hT, hI, show 50 * j + 50 = 50 * (j + 1) by ring, hrec]
      simp

theorem fetch_pages_all (page : Nat → List RawItem × Bool) (pages : List (List RawItem))
    (hne : pages ≠ [])
    (hpage : ∀ i, i < pages.length →
      page (50 * i) = (pages.getD i [], decide (i + 1 < pages.length))) :
    fetch_pages page pages.length 0 [] = some pages.flatten := by
  have := fetch_pages_shift page pages 0 [] hne (by simpa using hpage)
  simpa using this

/-! ## Lemmas about the Playlist Materializer -/

theorem add_all_ok (sp : SpClient) (pid : Nat)
    (ha : ∀ b, sp.addFails pid b = false) :
    ∀ (bs : List (List String)) (st : SpState),
      add_all sp pid bs st =
        Except.ok ⟨st.counter, st.log ++ bs.map (fun b => SpotifyEvent.addItems pid b)⟩ := by
  intro bs
  induction bs with
  | nil => intro st; simp [add_all]
  | cons b bs ih =>
    intro st
    simp only [add_all, ha b, Bool.false_eq_true, if_false, ih, List.map_cons]
    simp

theorem materialize_loop_cons (sp : SpClient) (user_id : String) (i : Nat)
    (tl : List String) (rest : List (List String)) (st : SpState) (names : List String) :
    materialize_loop sp user_id i (tl :: rest) st names =
      if tl = [] then materialize_loop sp user_id (i + 1) rest st names
      else
        if sp.createFails (playlistName i) then Except.error st
        else
          match add_all sp st.counter (chunks100 tl)
            ⟨st.counter + 1,
             st.log ++ [SpotifyEvent.create user_id (playlistName i) false st.counter]⟩ with
          | Except.error st2 => Except.error st2
          | Except.ok st2 =>
            materialize_loop sp user_id (i + 1) rest st2 (names ++ [playlistName i]) := rfl

theorem materialize_loop_ok (sp : SpClient) (user_id : String)
    (hc : ∀ n, sp.createFails n = false) (ha : ∀ p b, sp.addFails p b = false) :
    ∀ (cs : List (List String)) (i : Nat) (st : SpState) (names : List String),
      materialize_loop sp user_id i cs st names =
        Except.ok (⟨st.counter + (cs.filter (fun tl => tl ≠ [])).length,
                    st.log ++ successLog user_id i st.counter cs⟩,
                   names ++ successNames i cs) := by
  intro cs
  induction cs with
  | nil => intro i st names; simp [materialize_loop, successLog, successNames]
  | cons tl rest ih =>
    intro i st names
    by_cases htl : tl = []
    · simp only [materialize_loop, htl, if_true, ih, successLog, successNames,
        List.filter_cons]
      simp
    · simp only [materialize_loop, htl, if_false, hc (playlistName i), Bool.false_eq_true,
        add_all_ok sp st.counter (ha st.counter), ih, successLog, successNames,
        List.filter_cons]
      rw [if_pos (by simp [htl])]
      simp only [Except.ok.injEq, Prod.mk.injEq, SpState.mk.injEq, List.length_cons]
      refine ⟨⟨by omega, by simp⟩, by simp⟩

theorem itemsAdded_nil (pid : Nat) : itemsAdded [] pid = [] := rfl

theorem itemsAdded_append (l1 l2 : List SpotifyEvent) (pid : Nat) :
    itemsAdded (l1 ++ l2) pid = itemsAdded l1 pid ++ itemsAdded l2 pid := by
  simp [itemsAdded, List.filterMap_append]

theorem itemsAdded_cons_create (user_id pname : String) (isPublic : Bool) (c pid : Nat)
    (l : List SpotifyEvent) :
    itemsAdded (SpotifyEvent.create user_id pname isPublic c :: l) pid = itemsAdded l pid := by
  simp [itemsAdded, List.filterMap_cons]

theorem itemsAdded_map_addItems (c pid : Nat) (bs : List (List String)) :
    itemsAdded (bs.map (fun b => SpotifyEvent.addItems c b)) pid =
      if c = pid then bs.flatten else [] := by
  induction bs with
  | nil => simp [itemsAdded]
  | cons b bs ih =>
    by_cases h : c = pid <;>
      simp [itemsAdded, List.filterMap_cons, h] at ih ⊢ <;> simp [ih]

theorem itemsAdded_successLog_lt (user_id : String) :
    ∀ (cs : List (List String)) (i c pid : Nat), pid < c →
      itemsAdded (successLog user_id i c cs) pid = [] := by
  intro cs
  induction cs with
  | nil => intro i c pid _; rfl
  | cons tl rest ih =>
    intro i c pid hpid
    by_cases htl : tl = []
    · simp only [successLog, htl, if_true]
      exact ih (i + 1) c pid hpid
    · simp only [successLog, htl, if_false, itemsAdded_cons_create, itemsAdded_append,
        itemsAdded_map_addItems, if_neg (by omega : ¬c = pid)]
      rw [ih (i + 1) (c + 1) pid (by omega)]
      rfl

theorem itemsAdded_successLog (user_id : String) :
    ∀ (cs : List (List String)) (i c k : Nat),
      itemsAdded (successLog user_id i c cs) (c + k) =
        (cs.filter (fun tl => tl ≠ [])).getD k [] := by
  intro cs
  induction cs with
  | nil => intro i c k; simp [successLog, itemsAdded]
  | cons tl rest ih =>
    intro i c k
    by_cases htl : tl = []
    · simp only [successLog, htl, if_true, List.filter_cons]
      rw [ih (i + 1) c k]
      simp [htl]
    · simp only [successLog, htl, if_false, itemsAdded_cons_create, itemsAdded_append,
        itemsAdded_map_addItems, List.filter_cons]
      have hne : (decide ¬tl = []) = true := by simp [htl]
      rw [hne]
      simp only [if_true]
      cases k with
      | zero =>
        rw [if_pos (by omega), itemsAdded_successLog_lt user_id rest (i + 1) (c + 1) (c + 0) (by omega)]
        simp [chunks100_flatten]
      | succ k =>
        rw [if_neg (by omega)]
        have := ih (i + 1) (c + 1) k
        rw [show c + (k + 1) = c + 1 + k by omega, this]
        simp

theorem successNames_length : ∀ (cs : List (List String)) (i : Nat),
    (successNames i cs).length = (cs.filter (fun tl => tl ≠ [])).length := by
  intro cs
  induction cs with
  | nil => intro i; rfl
  | cons tl rest ih =>
    intro i
    by_cases htl : tl = [] <;>
      simp only [successNames, htl, if_true, if_false, List.filter_cons] <;>
      simp [htl, ih]

theorem successLog_smallBatches (user_id : String) :
    ∀ (cs : List (List String)) (i c : Nat), smallBatches (successLog user_id i c cs) := by
  intro cs
  induction cs with
  | nil => intro i c e he; simp [successLog] at he
  | cons tl rest ih =>
    intro i c e he
    by_cases htl : tl = []
    · rw [successLog, if_pos htl] at he
      exact ih (i + 1) c e he
    · rw [successLog, if_neg htl] at he
      rcases List.mem_cons.mp he with h | h
      · intro p b hb; rw [hb] at h; cases h
      · rcases List.mem_append.mp h with h2 | h2
        · rcases List.mem_map.mp h2 with ⟨b0, hb0, hbe⟩
          intro p b hb
          rw [hb] at hbe
          cases hbe
          exact chunks100_length_le tl b0 hb0
        · exact ih (i + 1) (c + 1) e h2

theorem materialize_loop_append (sp : SpClient) (user_id : String) :
    ∀ (l1 l2 : List (List String)) (i : Nat) (st : SpState) (names : List String),
      materialize_loop sp user_id i (l1 ++ l2) st names =
        match materialize_loop sp user_id i l1 st names with
        | Except.error st2 => Except.error st2
        | Except.ok (st1, names1) => materialize_loop sp user_id (i + l1.length) l2 st1 names1 := by
  intro l1
  induction l1 with
  | nil => intro l2 i st names; simp [materialize_loop]
  | cons tl rest ih =>
    intro l2 i st names
    rw [List.cons_append, materialize_loop_cons, materialize_loop_cons]
    by_cases htl : tl = []
    · rw [if_pos htl, if_pos htl, ih]
      simp only [List.length_cons, show i + (rest.length + 1) = i + 1 + rest.length by omega]
    · rw [if_neg htl, if_neg htl]
      by_cases hcf : sp.createFails (playlistName i)
      · rw [if_pos hcf, if_pos hcf]
      · rw [if_neg hcf, if_neg hcf]
        cases hadd : add_all sp st.counter (chunks100 tl)
          ⟨st.counter + 1, st.log ++ [SpotifyEvent.create user_id (playlistName i) false st.counter]⟩ with
        | error st2 => rfl
        | ok st2 =>
          simp only [ih, List.length_cons,
            show i + (rest.length + 1) = i + 1 + rest.length by omega]

theorem add_all_error_log (sp : SpClient) (pid : Nat) :
    ∀ (bs : List (List String)) (st st2 : SpState),
      add_all sp pid bs st = Except.error st2 → ∃ t, st2.log = st.log ++ t := by
  intro bs
  induction bs with
  | nil => intro st st2 h; cases h
  | cons b bs ih =>
    intro st st2 h
    rw [add_all] at h
    by_cases hf : sp.addFails pid b
    · rw [if_pos hf] at h
      cases h
      exact ⟨[], by simp⟩
    · rw [if_neg hf] at h
      rcases ih _ _ h with ⟨t, ht⟩
      exact ⟨SpotifyEvent.addItems pid b :: t, by simpa using ht⟩

theorem add_all_counter (sp : SpClient) (pid : Nat) :
    ∀ (bs : List (List String)) (st st2 : SpState),
      add_all sp pid bs st = Except.ok st2 → st2.counter = st.counter := by
  intro bs
  induction bs with
  | nil => intro st st2 h; cases h; rfl
  | cons b bs ih =>
    intro st st2 h
    rw [add_all] at h
    by_cases hf : sp.addFails pid b
    · rw [if_pos hf] at h; cases h
    · rw [if_neg hf] at h
      have h2 := ih _ _ h
      simpa using h2

theorem add_all_ok_log (sp : SpClient) (pid : Nat) :
    ∀ (bs : List (List String)) (st st2 : SpState),
      add_all sp pid bs st = Except.ok st2 → ∃ t, st2.log = st.log ++ t := by
  intro bs
  induction bs with
  | nil => intro st st2 h; cases h; exact ⟨[], by simp⟩
  | cons b bs ih =>
    intro st st2 h
    rw [add_all] at h
    by_cases hf : sp.addFails pid b
    · rw [if_pos hf] at h; cases h
    · rw [if_neg hf] at h
      rcases ih _ _ h with ⟨t, ht⟩
      exact ⟨SpotifyEvent.addItems pid b :: t, by simpa using ht⟩

theorem materialize_loop_error_log (sp : SpClient) (user_id : String) :
    ∀ (cs : List (List String)) (i : Nat) (st : SpState) (names : List String) (st2 : SpState),
      materialize_loop sp user_id i cs st names = Except.error st2 →
        ∃ t, st2.log = st.log ++ t := by
  intro cs
  induction cs with
  | nil => intro i st names st2 h; cases h
  | cons tl rest ih =>
    intro i st names st2 h
    rw [materialize_loop_cons] at h
    by_cases htl : tl = []
    · rw [if_pos htl] at h
      exact ih _ _ _ _ h
    · rw [if_neg htl] at h
      by_cases hcf : sp.createFails (playlistName i)
      · rw [if_pos hcf] at h
        cases h
        exact ⟨[], by simp⟩
      · rw [if_neg hcf] at h
        cases hadd : add_all sp st.counter (chunks100 tl)
          ⟨st.counter + 1, st.log ++ [SpotifyEvent.create user_id (playlistName i) false st.counter]⟩ with
        | error se =>
          rw [hadd] at h
          cases h
          rcases add_all_error_log sp st.counter _ _ _ hadd with ⟨t, ht⟩
          exact ⟨SpotifyEvent.create user_id (playlistName i) false st.counter :: t, by simpa using ht⟩
        | ok so =>
          rw [hadd] at h
          rcases ih _ _ _ _ h with ⟨t, ht⟩
          rcases add_all_ok_log sp st.counter _ _ _ hadd with ⟨t2, ht2⟩
          refine ⟨SpotifyEvent.create user_id (playlistName i) false st.counter :: (t2 ++ t), ?_⟩
          rw [ht, ht2]
          simp

/-! ## Claim theorems -/

/-- C3: the Cluster Engine is deterministic. Because the source pins
`random_state` to the fixed seed 42 (line 100), the labelling and the
resulting ClusterAssignment — and with them the whole pipeline result —
are functions of the cluster count and the feature matrix alone: two runs
of the same k-means algorithm under different ambient random states give
identical results. -/
theorem C3_cluster_determinism (lib lib2 : KMeansLib) (h : lib.run = lib2.run) :
    (∀ K X, kmeans_fit_predict lib K (some 42) X = kmeans_fit_predict lib2 K (some 42) X) ∧
    (∀ K X track_ids,
      cluster_assignment lib K X track_ids = cluster_assignment lib2 K X track_ids) ∧
    (∀ sp tracks user_id K,
      cluster_and_create_playlists sp lib tracks user_id K =
        cluster_and_create_playlists sp lib2 tracks user_id K) := by
  have hk : ∀ K X, kmeans_fit_predict lib K (some 42) X = kmeans_fit_predict lib2 K (some 42) X := by
    intro K X
    show lib.run K 42 X = lib2.run K 42 X
    rw [h]
  refine ⟨hk, ?_, ?_⟩
  · intro K X track_ids
    simp only [cluster_assignment, hk]
  · intro sp tracks user_id K
    simp only [cluster_and_create_playlists, cluster_assignment, hk]

/-- Witness for C3: the same k-means algorithm under two different
ambient random states yields the same pipeline result on a concrete
input. -/
theorem C3_cluster_determinism_witness :
    libW.rng ≠ libW2.rng ∧
    cluster_and_create_playlists spOk libW tracksC1 "user" 2 =
      cluster_and_create_playlists spOk libW2 tracksC1 "user" 2 :=
  ⟨by decide, (C3_cluster_determinism libW libW2 rfl).2.2 spOk tracksC1 "user" 2⟩

/-- C4: the Feature Fetcher output is never longer than its input; it
equals the resolved features of the identifiers of the successful
batches, in surviving input order; and its length equals the number of
surviving identifiers (each survivor contributes exactly one feature). -/
theorem C4_feature_fetcher_shape (sp : SpClient) (track_ids : List String) :
    (get_audio_features sp track_ids).length ≤ track_ids.length ∧
    get_audio_features sp track_ids =
      (((feature_batches track_ids).filter
          (fun b => sp.batchFails b = false)).flatten).filterMap sp.feat ∧
    (get_audio_features sp track_ids).length = (survivors sp track_ids).length := by
  refine ⟨?_, gaf_eq sp track_ids, ?_⟩
  · rw [gaf_eq]
    have h1 := List.length_filterMap_le sp.feat
      (((feature_batches track_ids).filter (fun b => sp.batchFails b = false)).flatten)
    have h2 := length_flatten_filter_le (fun b => sp.batchFails b = false)
      (feature_batches track_ids)
    have h3 : ((feature_batches track_ids).flatten).length ≤ track_ids.length := by
      have h4 := length_flatten_map_filter_le (fun tid => decide (tid ≠ ""))
        (chunks100 track_ids)
      rw [chunks100_flatten] at h4
      exact h4
    omega
  · rw [gaf_eq, survivors, length_filterMap_eq_filter]

/-- C5 counterexample: the source slices first and filters empty
identifiers inside each slice, so on an input with an empty identifier
the request batches differ from filter-then-partition — observably: a
client accepting only full batches of 100 returns no features to the
source code, while the spec-described batching would return 100. -/
theorem C5_batching_counterexample :
    feature_batches badIdsC5 ≠ spec_feature_batches badIdsC5 ∧
    feature_batches badIdsC5 = [List.replicate 99 "x", ["x"]] ∧
    spec_feature_batches badIdsC5 = [List.replicate 100 "x"] ∧
    get_audio_features spC5 badIdsC5 = [] ∧
    spec_get_audio_features spC5 badIdsC5 = List.replicate 100 f0 :=
  ⟨by decide, by decide, by decide, by decide, by decide⟩

/-- C5 amended: the Feature Fetcher partitions the identifier sequence
into consecutive slices of 100 and filters empty identifiers within each
slice after slicing; on inputs without empty identifiers — which is the
case for every identifier list the pipeline itself passes — this
coincides with filter-then-partition, with every batch of size at most
100 and every non-final batch of size exactly 100. -/
theorem C5_amended_batching (track_ids : List String)
    (h : ∀ tid ∈ track_ids, tid ≠ "") :
    feature_batches track_ids = spec_feature_batches track_ids ∧
    (∀ i, i + 1 < (feature_batches track_ids).length →
      ((feature_batches track_ids).getD i []).length = 100) ∧
    (∀ b ∈ feature_batches track_ids, b.length ≤ 100) ∧
    (∀ tracks : List RawItem, ∀ tid ∈ pipeline_track_ids tracks, tid ≠ "") := by
  have hfb : feature_batches track_ids = chunks100 track_ids :=
    feature_batches_of_no_empty track_ids h
  have hfl : track_ids.filter (fun tid => tid ≠ "") = track_ids :=
    List.filter_eq_self.mpr (fun a ha => by simpa using h a ha)
  refine ⟨?_, ?_, ?_, ?_⟩
  · rw [hfb, spec_feature_batches, hfl]
  · intro i hi
    rw [hfb] at hi ⊢
    exact chunks100_full track_ids i hi
  · intro b hb
    rw [hfb] at hb
    exact chunks100_length_le track_ids b hb
  · intro tracks tid htid
    have hmem := List.of_mem_filter htid
    simpa using hmem

/-- Witness for C5 amended, at a concrete empty-free input. -/
theorem C5_amended_batching_witness :
    (∀ tid ∈ ["x", "y"], tid ≠ "") ∧
    (feature_batches ["x", "y"] = spec_feature_batches ["x", "y"] ∧
     (∀ i, i + 1 < (feature_batches ["x", "y"]).length →
       ((feature_batches ["x", "y"]).getD i []).length = 100) ∧
     (∀ b ∈ feature_batches ["x", "y"], b.length ≤ 100) ∧
     (∀ tracks : List RawItem, ∀ tid ∈ pipeline_track_ids tracks, tid ≠ "")) :=
  ⟨by decide, C5_amended_batching ["x", "y"] (by decide)⟩

/-- C6: the Track Collector pages with fixed page size 50 at offsets
0, 50, 100, ... until the service reports no next page: when the first
page reports no next page the result is exactly that page, and when the
service serves N pages the result is their in-order concatenation — for
both the saved-tracks and the top-tracks source. -/
theorem C6_track_collector_pagination :
    (∀ (sp : SpClient) (fuel : Nat), 1 ≤ fuel → (sp.saved_page 0).2 = false →
      fetch_liked_songs sp fuel = some (sp.saved_page 0).1) ∧
    (∀ (sp : SpClient) (fuel : Nat), 1 ≤ fuel → (sp.top_page 0).2 = false →
      fetch_top_songs sp fuel = some (sp.top_page 0).1) ∧
    (∀ (sp : SpClient) (pages : List (List RawItem)), pages ≠ [] →
      (∀ i, i < pages.length →
        sp.saved_page (50 * i) = (pages.getD i [], decide (i + 1 < pages.length))) →
      fetch_liked_songs sp pages.length = some pages.flatten) ∧
    (∀ (sp : SpClient) (pages : List (List RawItem)), pages ≠ [] →
      (∀ i, i < pages.length →
        sp.top_page (50 * i) = (pages.getD i [], decide (i + 1 < pages.length))) →
      fetch_top_songs sp pages.length = some pages.flatten) :=
  ⟨fun _ fuel hf h => fetch_pages_single _ fuel hf h,
   fun _ fuel hf h => fetch_pages_single _ fuel hf h,
   fun _ pages hne hp => fetch_pages_all _ pages hne hp,
   fun _ pages hne hp => fetch_pages_all _ pages hne hp⟩

/-- Witness for C6: a two-page saved listing and a one-page top listing
on a concrete client. -/
theorem C6_track_collector_pagination_witness :
    fetch_liked_songs spC6 2 =
      some (List.replicate 50 (RawItem.flat (some "s")) ++
            List.replicate 50 (RawItem.flat (some "t"))) ∧
    fetch_top_songs spC6 1 = some [RawItem.flat (some "u")] := by
  constructor
  · have h := C6_track_collector_pagination.2.2.1 spC6
      [List.replicate 50 (RawItem.flat (some "s")),
       List.replicate 50 (RawItem.flat (some "t"))]
      (by decide) (by decide)
    simpa using h
  · have h := C6_track_collector_pagination.2.1 spC6 1 (by decide) (by decide)
    simpa using h

/-- C7: on a client whose playlist mutations succeed, the Playlist
Materializer creates exactly one playlist per non-empty cluster in
ascending label order (empty clusters are skipped), names each one
"Cluster (label+1) Playlist", inserts each cluster into its own playlist
in slices of at most 100 preserving the cluster order across batch
boundaries, and returns the created names in creation order. -/
theorem C7_playlist_materializer (sp : SpClient) (user_id : String)
    (clusters : List (List String))
    (hc : ∀ n, sp.createFails n = false) (ha : ∀ p b, sp.addFails p b = false) :
    materialize_loop sp user_id 0 clusters ⟨0, []⟩ [] =
      Except.ok (⟨(clusters.filter (fun tl => tl ≠ [])).length,
                  successLog user_id 0 0 clusters⟩,
                 successNames 0 clusters) ∧
    (∀ k, itemsAdded (successLog user_id 0 0 clusters) k =
      (clusters.filter (fun tl => tl ≠ [])).getD k []) ∧
    (successNames 0 clusters).length = (clusters.filter (fun tl => tl ≠ [])).length ∧
    smallBatches (successLog user_id 0 0 clusters) := by
  refine ⟨?_, ?_, successNames_length clusters 0, successLog_smallBatches user_id clusters 0 0⟩
  · have h := materialize_loop_ok sp user_id hc ha clusters 0 ⟨0, []⟩ []
    simpa using h
  · intro k
    have h := itemsAdded_successLog user_id clusters 0 0 k
    simpa using h

/-- Witness for C7: the ClusterAssignment with clusters `0 ↦ [t1, t2]`
and `1 ↦ []` yields exactly one playlist, named "Cluster 1 Playlist",
containing `[t1, t2]`. -/
theorem C7_playlist_materializer_witness :
    materialize_loop spOk "user" 0 [["t1", "t2"], []] ⟨0, []⟩ [] =
      Except.ok (⟨1, [SpotifyEvent.create "user" "Cluster 1 Playlist" false 0,
                      SpotifyEvent.addItems 0 ["t1", "t2"]]⟩,
                 ["Cluster 1 Playlist"]) := by
  have h := C7_playlist_materializer spOk "user" [["t1", "t2"], []]
    (fun _ => rfl) (fun _ _ => rfl)
  exact h.1.trans (by decide)

/-- C8: if materializing a prefix of the clusters succeeds and
materializing the following clusters raises, then the whole run raises
with the same error no matter what clusters follow the failure (the
failure propagates and aborts the remaining clusters), and the event log
at the error extends the log of the successful prefix (the playlists
already created are not rolled back). -/
theorem C8_mutation_failure_propagates (sp : SpClient) (user_id : String)
    (pre mid : List (List String)) (i : Nat) (st : SpState) (names : List String)
    (st1 : SpState) (names1 : List String) (st2 : SpState)
    (h1 : materialize_loop sp user_id i pre st names = Except.ok (st1, names1))
    (h2 : materialize_loop sp user_id (i + pre.length) mid st1 names1 = Except.error st2) :
    (∀ post, materialize_loop sp user_id i (pre ++ (mid ++ post)) st names =
      Except.error st2) ∧
    (∃ t, st2.log = st1.log ++ t) := by
  constructor
  · intro post
    rw [materialize_loop_append, h1]
    show materialize_loop sp user_id (i + pre.length) (mid ++ post) st1 names1 =
      Except.error st2
    rw [materialize_loop_append, h2]
  · exact materialize_loop_error_log sp user_id mid _ _ _ _ h2

/-- Witness for C8: with a client whose creation of "Cluster 2 Playlist"
fails, materializing three clusters creates the first playlist, raises on
the second, and never touches the third; the error carries the log with
the first playlist still created. -/
theorem C8_mutation_failure_propagates_witness :
    materialize_loop spC8 "user" 0 [["a"], ["b"], ["c"]] ⟨0, []⟩ [] =
      Except.error ⟨1, [SpotifyEvent.create "user" "Cluster 1 Playlist" false 0,
                        SpotifyEvent.addItems 0 ["a"]]⟩ := by
  have h := C8_mutation_failure_propagates spC8 "user" [["a"]] [["b"]] 0 ⟨0, []⟩ []
    ⟨1, [SpotifyEvent.create "user" "Cluster 1 Playlist" false 0,
         SpotifyEvent.addItems 0 ["a"]]⟩
    ["Cluster 1 Playlist"]
    ⟨1, [SpotifyEvent.create "user" "Cluster 1 Playlist" false 0,
         SpotifyEvent.addItems 0 ["a"]]⟩
    (by decide) (by decide)
  exact h.1 [["c"]]

/-- C9: on degenerate input — an empty track list, or one whose
identifiers yield no resolvable feature — the pipeline returns the
non-error "no playlists created" outcome (`Except.ok` with `none`),
with an empty mutation log (no playlist created) and a result that does
not depend on the clustering library (clustering is never invoked). -/
theorem C9_degenerate_inputs (sp : SpClient) (lib : KMeansLib) (tracks : List RawItem)
    (user_id : String) (cluster_count : Nat)
    (h : tracks = [] ∨ get_audio_features sp (pipeline_track_ids tracks) = []) :
    cluster_and_create_playlists sp lib tracks user_id cluster_count =
      Except.ok (⟨0, []⟩, none) := by
  rcases h with h | h
  · simp [cluster_and_create_playlists, h]
  · by_cases ht : tracks = [] <;> simp [cluster_and_create_playlists, ht, h]

/-- Witness for C9: the empty track list. -/
theorem C9_degenerate_inputs_witness :
    cluster_and_create_playlists spOk libW [] "user" 2 = Except.ok (⟨0, []⟩, none) :=
  C9_degenerate_inputs spOk libW [] "user" 2 (Or.inl rfl)

/-- C1 (code bug): evaluation of the pipeline at a failing input. Track
"a" has no resolvable feature and track "b" has one, with K = 1; for
every clustering library returning one in-range label for the single
surviving feature row, the resulting playlist contains exactly "a" — the
identifier with no feature — while the feature-bearing identifier "b" is
lost. The cluster union therefore does not equal the set of identifiers
with a resolvable FeatureVector: line 105 pairs `track_ids[idx]` with the
feature at position `idx` of the shrunken feature list. -/
theorem C1_cluster_union_misaligned (lib : KMeansLib)
    (hlen : (lib.run 1 42 (featureMatrix [f0])).length = 1)
    (hrange : ∀ l ∈ lib.run 1 42 (featureMatrix [f0]), l < 1) :
    cluster_and_create_playlists spC1 lib tracksC1 "user" 1 =
      Except.ok (⟨1, [SpotifyEvent.create "user" "Cluster 1 Playlist" false 0,
                      SpotifyEvent.addItems 0 ["a"]]⟩,
                 some ["Cluster 1 Playlist"]) ∧
    spC1.feat "a" = none ∧ (spC1.feat "b").isSome = true := by
  have h0 : lib.run 1 42 (featureMatrix [f0]) = [0] := by
    cases e : lib.run 1 42 (featureMatrix [f0]) with
    | nil => rw [e] at hlen; simp at hlen
    | cons a rest =>
      rw [e] at hlen hrange
      have hr : rest = [] := by
        have hl : rest.length = 0 := by simpa using hlen
        exact List.length_eq_zero.mp hl
      subst hr
      have ha : a = 0 := Nat.lt_one_iff.mp (hrange a (by simp))
      subst ha
      rfl
  have hkm : kmeans_fit_predict lib 1 (some 42)
      (featureMatrix (get_audio_features spC1 (pipeline_track_ids tracksC1))) = [0] := by
    show lib.run 1 42
      (featureMatrix (get_audio_features spC1 (pipeline_track_ids tracksC1))) = [0]
    rw [show featureMatrix (get_audio_features spC1 (pipeline_track_ids tracksC1)) =
      featureMatrix [f0] from rfl]
    exact h0
  have hca : cluster_assignment lib 1
      (featureMatrix (get_audio_features spC1 (pipeline_track_ids tracksC1)))
      (pipeline_track_ids tracksC1) = [["a"]] := by
    simp only [cluster_assignment, hkm]
    decide
  refine ⟨?_, rfl, rfl⟩
  simp only [cluster_and_create_playlists]
  rw [if_neg (by decide : ¬tracksC1 = [])]
  rw [if_neg (by decide : ¬get_audio_features spC1 (pipeline_track_ids tracksC1) = [])]
  rw [hca]
  decide

/-- Witness for C1 at the concrete library instance. -/
theorem C1_cluster_union_misaligned_witness :
    (detKMeans 1 42 (featureMatrix [f0])).length = 1 ∧
    (∀ l ∈ detKMeans 1 42 (featureMatrix [f0]), l < 1) ∧
    (cluster_and_create_playlists spC1 libW tracksC1 "user" 1 =
      Except.ok (⟨1, [SpotifyEvent.create "user" "Cluster 1 Playlist" false 0,
                      SpotifyEvent.addItems 0 ["a"]]⟩,
                 some ["Cluster 1 Playlist"]) ∧
     spC1.feat "a" = none ∧ (spC1.feat "b").isSome = true) :=
  ⟨by decide, by decide, C1_cluster_union_misaligned libW (by decide) (by decide)⟩

/-- C2 (code bug): evaluation of the pipeline at a failing input of 101
tracks split into a first feature batch of 100 (which fails with a
transport error) and a second batch `["b"]` (which succeeds). The
pipeline indeed does not abort — the failed batch is skipped and
clustering proceeds — but the playlist it creates contains "a", the head
of the FAILED batch, instead of "b", the identifier of the successful
batch: the surviving feature of "b" is paired with `track_ids[0]`. -/
theorem C2_failed_batch_tracks (lib : KMeansLib)
    (hlen : (lib.run 1 42 (featureMatrix [f0])).length = 1)
    (hrange : ∀ l ∈ lib.run 1 42 (featureMatrix [f0]), l < 1) :
    feature_batches (pipeline_track_ids tracksC2) =
      [("a" :: List.replicate 99 "x"), ["b"]] ∧
    spC2.batchFails ("a" :: List.replicate 99 "x") = true ∧
    spC2.batchFails ["b"] = false ∧
    get_audio_features spC2 (pipeline_track_ids tracksC2) = [f0] ∧
    cluster_and_create_playlists spC2 lib tracksC2 "user" 1 =
      Except.ok (⟨1, [SpotifyEvent.create "user" "Cluster 1 Playlist" false 0,
                      SpotifyEvent.addItems 0 ["a"]]⟩,
                 some ["Cluster 1 Playlist"]) := by
  have h0 : lib.run 1 42 (featureMatrix [f0]) = [0] := by
    cases e : lib.run 1 42 (featureMatrix [f0]) with
    | nil => rw [e] at hlen; simp at hlen
    | cons a rest =>
      rw [e] at hlen hrange
      have hr : rest = [] := by
        have hl : rest.length = 0 := by simpa using hlen
        exact List.length_eq_zero.mp hl
      subst hr
      have ha : a = 0 := Nat.lt_one_iff.mp (hrange a (by simp))
      subst ha
      rfl
  have hkm : kmeans_fit_predict lib 1 (some 42)
      (featureMatrix (get_audio_features spC2 (pipeline_track_ids tracksC2))) = [0] := by
    show lib.run 1 42
      (featureMatrix (get_audio_features spC2 (pipeline_track_ids tracksC2))) = [0]
    rw [show featureMatrix (get_audio_features spC2 (pipeline_track_ids tracksC2)) =
      featureMatrix [f0] from rfl]
    exact h0
  have hca : cluster_assignment lib 1
      (featureMatrix (get_audio_features spC2 (pipeline_track_ids tracksC2)))
      (pipeline_track_ids tracksC2) = [["a"]] := by
    simp only [cluster_assignment, hkm]
    decide
  refine ⟨by decide, by decide, by decide, by decide, ?_⟩
  simp only [cluster_and_create_playlists]
  rw [if_neg (by decide : ¬tracksC2 = [])]
  rw [if_neg (by decide : ¬get_audio_features spC2 (pipeline_track_ids tracksC2) = [])]
  rw [hca]
  decide

/-- Witness for C2 at the concrete library instance. -/
theorem C2_failed_batch_tracks_witness :
    (detKMeans 1 42 (featureMatrix [f0])).length = 1 ∧
    (∀ l ∈ detKMeans 1 42 (featureMatrix [f0]), l < 1) ∧
    (feature_batches (pipeline_track_ids tracksC2) =
      [("a" :: List.replicate 99 "x"), ["b"]] ∧
     spC2.batchFails ("a" :: List.replicate 99 "x") = true ∧
     spC2.batchFails ["b"] = false ∧
     get_audio_features spC2 (pipeline_track_ids tracksC2) = [f0] ∧
     cluster_and_create_playlists spC2 libW tracksC2 "user" 1 =
      Except.ok (⟨1, [SpotifyEvent.create "user" "Cluster 1 Playlist" false 0,
                      SpotifyEvent.addItems 0 ["a"]]⟩,
                 some ["Cluster 1 Playlist"])) :=
  ⟨by decide, by decide, C2_failed_batch_tracks libW (by decide) (by decide)⟩

/-- C10 counterexample: on an expired token whose refresh fails, the
handler does fail closed, but the redirect target is the route "index"
(the landing page), not the route "login" as the claim words it. -/
theorem C10_redirect_counterexample :
    choose_route oauthC10 spOk libW (some tokC10) true "liked" 2 5 =
      some (HttpResult.redirect "index" (some ("Please login first.", "warning")), []) ∧
    choose_route oauthC10 spOk libW (some tokC10) true "liked" 2 5 ≠
      some (HttpResult.redirect "login" (some ("Please login first.", "warning")), []) :=
  ⟨by decide, by decide⟩

/-- C10 amended: if the stored token is expired and the refresh fails,
the client constructor returns no client, and the request handler —
whatever the method, source choice or cluster count — flashes
"Please login first." and redirects to the index (landing) page without
performing any catalog call: the pipeline never runs unauthenticated
after a failed refresh (fail closed). -/
theorem C10_fail_closed (oauth : OAuth) (sp : SpClient) (lib : KMeansLib)
    (ti : TokenInfo) (isPost : Bool) (song_choice : String) (cluster_count fuel : Nat)
    (hexp : ti.expired = true) (href : oauth.refresh ti.refresh_token = none) :
    (get_spotify_client oauth (some ti)).1 = none ∧
    choose_route oauth sp lib (some ti) isPost song_choice cluster_count fuel =
      some (HttpResult.redirect "index" (some ("Please login first.", "warning")), []) := by
  have hg : get_spotify_client oauth (some ti) = (none, some ti) := by
    simp [get_spotify_client, hexp, href]
  exact ⟨by rw [hg], by simp [choose_route, hg]⟩

/-- Witness for C10 amended at a concrete expired session. -/
theorem C10_fail_closed_witness :
    tokC10.expired = true ∧ oauthC10.refresh tokC10.refresh_token = none ∧
    ((get_spotify_client oauthC10 (some tokC10)).1 = none ∧
     choose_route oauthC10 spC8 libW2 (some tokC10) false "both" 3 7 =
       some (HttpResult.redirect "index" (some ("Please login first.", "warning")), [])) :=
  ⟨rfl, rfl, C10_fail_closed oauthC10 spC8 libW2 tokC10 false "both" 3 7 rfl rfl⟩

end Spotilize
